import Mathlib

/-!
Verification development for `ideaspark.py`, a command-line brainstorming
assistant.  The script reads an API credential from the environment, runs a
line-oriented REPL, builds one HTTP request per concept, parses the
double-encoded JSON response and pretty-prints it.

The embedding below follows the Python source closely:

* `Json` models parsed Python JSON values (`json.loads` results and the
  response envelope).  `Json.truthy` is Python truthiness.
* Printing is modelled as a list of structured `OutLine` events, one event
  per `print` statement, carrying exactly the data interpolated into the
  printed f-string.
* Python operations that can raise an uncaught exception (`[...]` on a
  missing key, `.get` on a non-dict, `.upper()` on a non-string, iteration
  over a non-list, `input()` at end of input) are modelled in the `Option`
  monad; `none` means the process dies with an uncaught exception.
* The network and the `json` library are oracles: `net : Nat → HttpOutcome`
  gives the outcome of the k-th `requests.post`, and
  `loads : String → Option Json` gives the result of `json.loads` on the
  nested response text (`none` = `json.JSONDecodeError`).
-/

namespace IdeaSpark

/-- Parsed JSON values, as produced by Python's `json.loads`.  Object fields
keep insertion order (Python dicts preserve it); numbers are modelled as
integers, which is all the claims need. -/
inductive Json : Type
  | null : Json
  | bool : Bool → Json
  | num : Int → Json
  | str : String → Json
  | arr : List Json → Json
  | obj : List (String × Json) → Json

namespace Json

/-- Python truthiness (`if x:`): `None`, `False`, `0`, `""`, `[]`, `{}` are
falsy, everything else truthy. -/
def truthy : Json → Bool
  | .null => false
  | .bool b => b
  | .num n => n != 0
  | .str s => s != ""
  | .arr xs => !xs.isEmpty
  | .obj kvs => !kvs.isEmpty

/-- First value bound to key `k` in an association list of object fields. -/
def lookupKey (kvs : List (String × Json)) (k : String) : Option Json :=
  (kvs.find? (fun kv => kv.1 == k)).map (fun kv => kv.2)

/-- Python `d.get(k)`: `None` when the key is missing; raises
(`AttributeError`, modelled as `none`) when the receiver is not a dict. -/
def pyGet : Json → String → Option Json
  | .obj kvs, k => some ((lookupKey kvs k).getD .null)
  | _, _ => none

/-- Python `d.get(k, default)`: like `pyGet` but with an explicit default. -/
def pyGetD : Json → String → Json → Option Json
  | .obj kvs, k, d => some ((lookupKey kvs k).getD d)
  | _, _, _ => none

/-- Python `d[k]` on a dict: raises `KeyError` when missing (`none`); raises
when the receiver is not a dict. -/
def pyItem : Json → String → Option Json
  | .obj kvs, k => lookupKey kvs k
  | _, _ => none

/-- Python `xs[i]` on a list: raises `IndexError` out of range; raises on a
non-list receiver.  (Python would index into a string character-wise; no
claim exercises that, so it is folded into the raising case.) -/
def pyIndex : Json → Nat → Option Json
  | .arr xs, i => xs.get? i
  | _, _ => none

/-- The underlying string; raising (`none`) on a non-string, as Python
string methods and `json.loads` do. -/
def asStr : Json → Option String
  | .str s => some s
  | _ => none

/-- The underlying list; raising (`none`) on a non-list.  (Python `for`
would also iterate strings and dict keys; no claim exercises that.) -/
def asArr : Json → Option (List Json)
  | .arr xs => some xs
  | _ => none

end Json

/-- Python `s.strip()`: remove leading and trailing whitespace. -/
def pyStrip (s : String) : String :=
  ⟨((s.data.dropWhile Char.isWhitespace).reverse.dropWhile Char.isWhitespace).reverse⟩

/-- Python `s.lower()`. -/
def pyLower (s : String) : String := ⟨s.data.map Char.toLower⟩

/-- Python `s.upper()`. -/
def pyUpper (s : String) : String := ⟨s.data.map Char.toUpper⟩

/-- One `print` statement of the script, as a structured event carrying the
data interpolated into the printed f-string.  Constructors appear in source
order of the corresponding `print` calls in `ideaspark.py`. -/
inductive OutLine : Type
  | scriptStarting                                 -- "--- SCRIPT STARTING ---"
  | missingKeyError                                -- "Error: GOOGLE_API_KEY environment variable not found."
  | missingKeyHint1                                -- "Please ensure you have set it permanently using 'setx ...'"
  | missingKeyHint2                                -- "and then closed and reopened your terminal/VS Code."
  | httpErrorMsg (status : Nat) (body : String)    -- "HTTP Error: {status} - {body}"
  | connErrorMsg (msg : String)                    -- "Connection Error: {e}"
  | timeoutErrMsg (msg : String)                   -- "Timeout Error: {e}"
  | requestErrMsg (msg : String)                   -- "Request Error: {e}"
  | blockedPrompt (reason : Json)                  -- "LLM blocked prompt due to: {blockReason}"
  | safetyRating (category probability : Json)     -- "  {category}: {probability}"
  | unexpectedFormatMsg                            -- "Error: Unexpected or empty LLM response format."
  | envelopeDump (envelope : Json)                 -- json.dumps(api_result, indent=2)
  | jsonDecodeErrMsg                               -- "JSON Decode Error: Could not parse ..."
  | rawNestedDump (raw : String)                   -- "Raw LLM response string ...:\n{raw}"
  | introBanner                                    -- "--- IdeaSpark: Your Dynamic Brainstorming Partner ---"
  | introDesc                                      -- "Enter a vague concept, and I'll generate ..."
  | introExitHint                                  -- "Type 'exit' to quit."
  | inputPrompt                                    -- prompt text shown by input(...)
  | farewell                                       -- "Exiting IdeaSpark. Happy ideating!"
  | enterConcept                                   -- "Please enter a concept to brainstorm."
  | brainstormWait                                 -- "Brainstorming... Please wait a moment. ..."
  | resultsBanner                                  -- "=...= BRAINSTORMING RESULTS =...="
  | originalConcept (idea : Json)                  -- "Original Concept: {idea-or-fallback}"
  | sepLine                                        -- "=" * 80
  | categoryHeader (title : String)                -- "--- {category.upper()} ---"
  | bullet (point : Json)                          -- "  - {point}"
  | noPoints                                       -- "  (No specific points generated ...)"
  | genericFailure                                 -- "Failed to get a valid brainstorming response ..."

/-- Outcome of one `requests.post` + `raise_for_status` + `response.json()`
round, abstracting the network:
`ok` = 2xx with the response body parsed to `envelope`;
`httpError` = `raise_for_status` raised `requests.exceptions.HTTPError`
(HTTP 4xx/5xx status) with the response body text;
the remaining constructors are the other caught request exceptions. -/
inductive HttpOutcome : Type
  | ok (envelope : Json)
  | httpError (status : Nat) (body : String)
  | connError (msg : String)
  | timeoutErr (msg : String)
  | requestErr (msg : String)

/-! ### Request builder (`payload` in `get_llm_response`, `prompt` in `main`) -/

/-- One `{"text": ...}` part of the Gemini request. -/
structure Part where
  text : String

/-- One `{"parts": [...]}` content block. -/
structure Content where
  parts : List Part

/-- `generationConfig` of the request payload. -/
structure GenerationConfig where
  responseMimeType : String
  responseSchema : Json

/-- One entry of `safetySettings`. -/
structure SafetySetting where
  category : String
  threshold : String

/-- The JSON body of the outbound POST request. -/
structure Payload where
  contents : List Content
  generationConfig : GenerationConfig
  safetySettings : List SafetySetting

/-- The `response_schema` literal of `get_llm_response` (descriptions
included), transcribed as a `Json` value. -/
def response_schema : Json :=
  .obj [("type", .str "OBJECT"),
    ("properties", .obj [
      ("idea", .obj [("type", .str "STRING"),
        ("description", .str "The original concept provided by the user")]),
      ("angles", .obj [("type", .str "ARRAY"),
        ("description", .str "A list of distinct brainstorming angles for the concept"),
        ("items", .obj [("type", .str "OBJECT"),
          ("properties", .obj [
            ("category", .obj [("type", .str "STRING"),
              ("description", .str "The name of the brainstorming category (e.g., Target Users, Business Models)")]),
            ("points", .obj [("type", .str "ARRAY"),
              ("description", .str "3-5 specific bullet points for this category"),
              ("items", .obj [("type", .str "STRING")])])]),
          ("required", .arr [.str "category", .str "points"])])])]),
    ("required", .arr [.str "idea", .str "angles"])]

/-- The `payload` dict built in `get_llm_response` from `prompt_text`. -/
def buildPayload (prompt_text : String) : Payload :=
  { contents := [{ parts := [{ text := prompt_text }] }]
    generationConfig :=
      { responseMimeType := "application/json"
        responseSchema := response_schema }
    safetySettings :=
      [{ category := "HARM_CATEGORY_HARASSMENT", threshold := "BLOCK_NONE" },
       { category := "HARM_CATEGORY_HATE_SPEECH", threshold := "BLOCK_NONE" },
       { category := "HARM_CATEGORY_SEXUALLY_EXPLICIT", threshold := "BLOCK_NONE" },
       { category := "HARM_CATEGORY_DANGEROUS_CONTENT", threshold := "BLOCK_NONE" }] }

/-- Text of the f-string `prompt` in `main` before the interpolated concept. -/
def promptPrefix : String :=
  "\n        You are an expert startup ideator and business strategist.\n        Your task is to take the user's vague concept and generate 5 distinct, structured brainstorming angles.\n        For each angle, provide 3-5 specific, actionable points.\n        The angles should cover the following categories:\n        - Target Users/Audience\n        - Core Problem Solved\n        - Potential Business Models/Monetization\n        - Key Technologies/Features\n        - Ethical/Societal Considerations\n\n        Concept to brainstorm: \""

/-- Text of the f-string `prompt` in `main` after the interpolated concept. -/
def promptSuffix : String := "\"\n        "

/-- The f-string `prompt` built in `main` for a trimmed concept. -/
def buildPrompt (concept : String) : String :=
  promptPrefix ++ concept ++ promptSuffix

/-! ### API client (`get_llm_response`) -/

/-- What one call of `get_llm_response` does: its prints and its Python
return value (`none` = Python `None`). -/
structure LlmCall where
  out : List OutLine
  result : Option Json

/-- The big envelope condition of `get_llm_response` (lines 85-87):
`api_result.get("candidates") and api_result["candidates"][0].get("content")
and api_result["candidates"][0]["content"].get("parts") and
api_result["candidates"][0]["content"]["parts"][0].get("text")`,
with Python short-circuiting and uncaught exceptions as `none`. -/
def envelopeCond (env : Json) : Option Bool := do
  let cands ← env.pyGet "candidates"
  if !cands.truthy then return false
  let c0 ← (← env.pyItem "candidates").pyIndex 0
  let content ← c0.pyGet "content"
  if !content.truthy then return false
  let c0 ← (← env.pyItem "candidates").pyIndex 0
  let parts ← (← c0.pyItem "content").pyGet "parts"
  if !parts.truthy then return false
  let c0 ← (← env.pyItem "candidates").pyIndex 0
  let p0 ← (← (← c0.pyItem "content").pyItem "parts").pyIndex 0
  let t ← p0.pyGet "text"
  return t.truthy

/-- `llm_response_json_string = api_result["candidates"][0]["content"]["parts"][0]["text"]`
(line 88); `json.loads` then needs it to be a string. -/
def extractNestedText (env : Json) : Option String := do
  let c0 ← (← env.pyItem "candidates").pyIndex 0
  let p0 ← (← (← c0.pyItem "content").pyItem "parts").pyIndex 0
  let t ← p0.pyItem "text"
  t.asStr

/-- The block-detection condition (line 91):
`api_result.get("promptFeedback") and api_result["promptFeedback"].get("blockReason")`. -/
def blockCond (env : Json) : Option Bool := do
  let pf ← env.pyGet "promptFeedback"
  if !pf.truthy then return false
  let br ← (← env.pyItem "promptFeedback").pyGet "blockReason"
  return br.truthy

/-- The prints of the blocked-prompt branch (lines 92-95): the block reason,
then one line per safety rating when `safetyRatings` is truthy. -/
def blockedOutput (env : Json) : Option (List OutLine) := do
  let reason ← (← env.pyItem "promptFeedback").pyItem "blockReason"
  let sr ← (← env.pyItem "promptFeedback").pyGet "safetyRatings"
  if sr.truthy then
    let ratings ← sr.asArr
    let ratingLines ← ratings.mapM (fun r => do
      let cat ← r.pyItem "category"
      let prob ← r.pyItem "probability"
      return OutLine.safetyRating cat prob)
    return OutLine.blockedPrompt reason :: ratingLines
  else
    return [OutLine.blockedPrompt reason]

/-- `get_llm_response(prompt_text)`: builds the payload, POSTs it (the
network's answer is the oracle `outcome`), and handles the response exactly
as the Python `try`/`except` chain does.  `loads` is the `json.loads`
oracle for the nested response text; result `none` means the process dies
with an uncaught exception. -/
def get_llm_response (loads : String → Option Json) (prompt_text : String)
    (outcome : HttpOutcome) : Option LlmCall :=
  let _payload := buildPayload prompt_text
  match outcome with
  | .httpError status body => some ⟨[.httpErrorMsg status body], none⟩
  | .connError msg => some ⟨[.connErrorMsg msg], none⟩
  | .timeoutErr msg => some ⟨[.timeoutErrMsg msg], none⟩
  | .requestErr msg => some ⟨[.requestErrMsg msg], none⟩
  | .ok env => do
    let cond ← envelopeCond env
    if cond then
      let s ← extractNestedText env
      match loads s with
      | some v => some ⟨[], some v⟩
      | none => some ⟨[.jsonDecodeErrMsg, .rawNestedDump s], none⟩
    else
      let blocked ← blockCond env
      if blocked then
        let lines ← blockedOutput env
        some ⟨lines, none⟩
      else
        some ⟨[.unexpectedFormatMsg, .envelopeDump env], none⟩

/-! ### Response renderer (body of `if brainstorm_result:` in `main`) -/

/-- Rendering of one angle (lines 161-169): category header upper-cased,
then one bullet per point in order, or the no-points placeholder when the
points list is falsy.  `none` = uncaught exception (non-dict angle,
non-string category, truthy non-list points). -/
def renderAngle (angle : Json) : Option (List OutLine) := do
  let category ← angle.pyGetD "category" (.str "Unknown Category")
  let points ← angle.pyGetD "points" (.arr [])
  let title ← category.asStr
  if points.truthy then
    let pts ← points.asArr
    return OutLine.categoryHeader (pyUpper title) :: pts.map OutLine.bullet
  else
    return [OutLine.categoryHeader (pyUpper title), OutLine.noPoints]

/-- Rendering of a truthy `brainstorm_result` (lines 157-170): banner, the
echoed `idea` (falling back to the user's concept), a separator, each angle
in the order returned, and a closing separator. -/
def renderResult (result : Json) (concept : String) : Option (List OutLine) := do
  let idea ← result.pyGetD "idea" (.str concept)
  let angles ← result.pyGetD "angles" (.arr [])
  let anglesList ← angles.asArr
  let angleBlocks ← anglesList.mapM renderAngle
  return [OutLine.resultsBanner, OutLine.originalConcept idea, OutLine.sepLine]
    ++ angleBlocks.flatten ++ [OutLine.sepLine]

/-! ### Interaction loop (`main`) -/

/-- How the process ended: `exited code` = `sys.exit(code)` or falling off
`main`; `crashed` = an uncaught Python exception (traceback on stderr, the
interpreter exits with status 1). -/
inductive ExitKind : Type
  | exited (code : Nat)
  | crashed

/-- The operating-system exit status of an `ExitKind` (an uncaught
exception makes the Python interpreter exit with status 1). -/
def ExitKind.exitStatus : ExitKind → Nat
  | .exited code => code
  | .crashed => 1

/-- Observable behaviour of a run: printed lines, number of API calls
issued (`requests.post` round trips), and how the process ended. -/
structure RunOut where
  out : List OutLine
  calls : Nat
  exit : ExitKind

/-- The `while True` loop of `main`, one recursion step per line read.
`inputs` are the lines still available on standard input (`input()` at an
exhausted stream raises `EOFError`, which nothing catches); `k` counts API
calls already made, indexing the network oracle `net`. -/
def mainLoop (loads : String → Option Json) (net : Nat → HttpOutcome) :
    Nat → List String → RunOut
  | _, [] => ⟨[.inputPrompt], 0, .crashed⟩
  | k, line :: rest =>
    let concept := pyStrip line
    if pyLower concept == "exit" then
      ⟨[.inputPrompt, .farewell], 0, .exited 0⟩
    else if concept == "" then
      let r := mainLoop loads net k rest
      ⟨.inputPrompt :: .enterConcept :: r.out, r.calls, r.exit⟩
    else
      match get_llm_response loads (buildPrompt concept) (net k) with
      | none => ⟨[.inputPrompt, .brainstormWait], 1, .crashed⟩
      | some call =>
        let rendered : Option (List OutLine) :=
          match call.result with
          | some v => if v.truthy then renderResult v concept else some [.genericFailure]
          | none => some [.genericFailure]
        match rendered with
        | none => ⟨.inputPrompt :: .brainstormWait :: call.out, 1, .crashed⟩
        | some shown =>
          let r := mainLoop loads net (k + 1) rest
          ⟨.inputPrompt :: .brainstormWait :: (call.out ++ shown) ++ r.out,
            r.calls + 1, r.exit⟩

/-- Truthiness of `API_KEY = os.getenv("GOOGLE_API_KEY")`: `None` (unset)
and the empty string are falsy. -/
def keyTruthy : Option String → Bool
  | none => false
  | some s => s != ""

/-- The whole script: the import-time banner print, the `if not API_KEY`
bootstrap check with `sys.exit(1)`, then `main()`: intro prints followed by
the interaction loop. -/
def runProgram (apiKey : Option String) (loads : String → Option Json)
    (net : Nat → HttpOutcome) (inputs : List String) : RunOut :=
  if keyTruthy apiKey then
    let r := mainLoop loads net 0 inputs
    ⟨.scriptStarting :: .introBanner :: .introDesc :: .introExitHint :: r.out,
      r.calls, r.exit⟩
  else
    ⟨[.scriptStarting, .missingKeyError, .missingKeyHint1, .missingKeyHint2],
      0, .exited 1⟩

/-! ### Shared test fixtures and helper lemmas -/

/-- A successful Gemini envelope carrying one nested response text:
`{"candidates": [{"content": {"parts": [{"text": nested}]}}]}`. -/
def mkEnvelope (nested : String) : Json :=
  .obj [("candidates", .arr [.obj [("content",
    .obj [("parts", .arr [.obj [("text", .str nested)]])])]])]

theorem envelopeCond_mkEnvelope (s : String) :
    envelopeCond (mkEnvelope s) = some (s != "") := rfl

theorem extractNestedText_mkEnvelope (s : String) :
    extractNestedText (mkEnvelope s) = some s := rfl

/-- On a well-formed envelope the client's behaviour is decided by
`json.loads` on the nested text. -/
theorem get_llm_response_mkEnvelope (loads : String → Option Json)
    (p s : String) (h : s ≠ "") :
    get_llm_response loads p (.ok (mkEnvelope s)) =
      match loads s with
      | some v => some ⟨[], some v⟩
      | none => some ⟨[.jsonDecodeErrMsg, .rawNestedDump s], none⟩ := by
  have hb : (s != "") = true := by simpa using h
  cases hl : loads s <;>
    simp [get_llm_response, envelopeCond_mkEnvelope, hb,
      extractNestedText_mkEnvelope, hl]

/-- Unfolding of one loop iteration on a genuine concept (neither the exit
sentinel nor blank after trimming). -/
theorem mainLoop_cons_concept (loads : String → Option Json)
    (net : Nat → HttpOutcome) (k : Nat) (line : String) (rest : List String)
    (hexit : pyLower (pyStrip line) ≠ "exit") (hne : pyStrip line ≠ "") :
    mainLoop loads net k (line :: rest) =
      match get_llm_response loads (buildPrompt (pyStrip line)) (net k) with
      | none => ⟨[.inputPrompt, .brainstormWait], 1, .crashed⟩
      | some call =>
        match (match call.result with
               | some v => if v.truthy then renderResult v (pyStrip line)
                           else some [.genericFailure]
               | none => some [.genericFailure]) with
        | none => ⟨.inputPrompt :: .brainstormWait :: call.out, 1, .crashed⟩
        | some shown =>
          ⟨.inputPrompt :: .brainstormWait :: (call.out ++ shown)
              ++ (mainLoop loads net (k + 1) rest).out,
            (mainLoop loads net (k + 1) rest).calls + 1,
            (mainLoop loads net (k + 1) rest).exit⟩ := by
  have h1 : (pyLower (pyStrip line) == "exit") = false := beq_eq_false_iff_ne.mpr hexit
  have h2 : (pyStrip line == "") = false := beq_eq_false_iff_ne.mpr hne
  conv_lhs => rw [mainLoop]
  simp only [h1, h2, Bool.false_eq_true, if_false]

/-- Nested response text of the round-trip fixture:
`{"idea": "X", "angles": [{"category": "A", "points": ["p1", "p2"]}]}`. -/
def sampleNested : String :=
  "\x7b\"idea\": \"X\", \"angles\": [\x7b\"category\": \"A\", \"points\": [\"p1\", \"p2\"]\x7d]\x7d"

/-- The round-trip fixture parsed. -/
def sampleResult : Json :=
  .obj [("idea", .str "X"),
    ("angles", .arr [.obj [("category", .str "A"),
      ("points", .arr [.str "p1", .str "p2"])]])]

/-- `json.loads` oracle that decodes exactly the round-trip fixture. -/
def sampleLoads : String → Option Json :=
  fun s => if s = sampleNested then some sampleResult else none

/-- Network oracle always answering with the round-trip fixture. -/
def sampleNet : Nat → HttpOutcome := fun _ => .ok (mkEnvelope sampleNested)

/-- Nested response text with deliberately unsorted angles and points:
`{"idea": "X", "angles": [{"category": "b", "points": ["q2", "q1"]},
{"category": "a", "points": ["z", "a"]}]}`. -/
def shuffledNested : String :=
  "\x7b\"idea\": \"X\", \"angles\": [\x7b\"category\": \"b\", \"points\": [\"q2\", \"q1\"]\x7d, \x7b\"category\": \"a\", \"points\": [\"z\", \"a\"]\x7d]\x7d"

/-- The unsorted fixture parsed: categories and points appear in an order a
sort (by any of the usual keys) would change. -/
def shuffledResult : Json :=
  .obj [("idea", .str "X"),
    ("angles", .arr [
      .obj [("category", .str "b"), ("points", .arr [.str "q2", .str "q1"])],
      .obj [("category", .str "a"), ("points", .arr [.str "z", .str "a"])]])]

/-- `json.loads` oracle that decodes exactly the unsorted fixture. -/
def shuffledLoads : String → Option Json :=
  fun s => if s = shuffledNested then some shuffledResult else none

/-- Network oracle always answering with the unsorted fixture. -/
def shuffledNet : Nat → HttpOutcome := fun _ => .ok (mkEnvelope shuffledNested)

/-- C1: on a successful response whose nested JSON is
`{"idea": "X", "angles": [{"category": "A", "points": ["p1", "p2"]}]}` the
renderer echoes "X" as the concept, prints the category header upper-cased,
then each point as a bulleted line in the returned order; and on a fixture
whose angles and points are deliberately out of sorted order, the output
preserves exactly the returned order (nothing is sorted). -/
theorem C1_render_round_trip_preserves_order :
    mainLoop sampleLoads sampleNet 0 ["my concept", "exit"] =
      ⟨[.inputPrompt, .brainstormWait,
        .resultsBanner, .originalConcept (.str "X"), .sepLine,
        .categoryHeader "A", .bullet (.str "p1"), .bullet (.str "p2"), .sepLine,
        .inputPrompt, .farewell], 1, .exited 0⟩ ∧
    mainLoop shuffledLoads shuffledNet 0 ["my concept", "exit"] =
      ⟨[.inputPrompt, .brainstormWait,
        .resultsBanner, .originalConcept (.str "X"), .sepLine,
        .categoryHeader "B", .bullet (.str "q2"), .bullet (.str "q1"),
        .categoryHeader "A", .bullet (.str "z"), .bullet (.str "a"), .sepLine,
        .inputPrompt, .farewell], 1, .exited 0⟩ :=
  ⟨rfl, rfl⟩

/-- C2: when the credential environment variable is absent or empty, the
process prints the corrective instructions and exits with status 1; for
every input stream and network the output is exactly the four startup
lines, with no input prompt ever shown and no API call issued. -/
theorem C2_missing_key_exits_before_loop (apiKey : Option String)
    (loads : String → Option Json) (net : Nat → HttpOutcome)
    (inputs : List String) (h : apiKey = none ∨ apiKey = some "") :
    runProgram apiKey loads net inputs =
      ⟨[.scriptStarting, .missingKeyError, .missingKeyHint1, .missingKeyHint2],
        0, .exited 1⟩ ∧
    OutLine.inputPrompt ∉ (runProgram apiKey loads net inputs).out := by
  have hk : keyTruthy apiKey = false := by
    rcases h with h | h <;> simp [h, keyTruthy]
  refine ⟨by simp [runProgram, hk], ?_⟩
  simp [runProgram, hk]

/-- C2 witness: the unset-credential case at a concrete input. -/
theorem C2_missing_key_exits_before_loop_witness :
    runProgram none (fun _ => none) (fun _ => .ok .null) ["a concept"] =
      ⟨[.scriptStarting, .missingKeyError, .missingKeyHint1, .missingKeyHint2],
        0, .exited 1⟩ ∧
    OutLine.inputPrompt ∉
      (runProgram none (fun _ => none) (fun _ => .ok .null) ["a concept"]).out :=
  C2_missing_key_exits_before_loop none (fun _ => none) (fun _ => .ok .null)
    ["a concept"] (Or.inl rfl)

/-- A line that trims and lower-cases to the sentinel ends the loop at
once: farewell, no API call, exit code 0. -/
theorem mainLoop_exit_line (loads : String → Option Json)
    (net : Nat → HttpOutcome) (k : Nat) (line : String) (rest : List String)
    (h : pyLower (pyStrip line) = "exit") :
    mainLoop loads net k (line :: rest) =
      ⟨[.inputPrompt, .farewell], 0, .exited 0⟩ := by
  conv_lhs => rw [mainLoop]
  simp [h]

/-- C3: any input line whose trimmed text case-insensitively equals "exit"
makes the loop print the farewell and terminate with exit status 0, issuing
no API call. -/
theorem C3_exit_sentinel_terminates (loads : String → Option Json)
    (net : Nat → HttpOutcome) (k : Nat) (line : String) (rest : List String)
    (h : pyLower (pyStrip line) = "exit") :
    mainLoop loads net k (line :: rest) =
      ⟨[.inputPrompt, .farewell], 0, .exited 0⟩ :=
  mainLoop_exit_line loads net k line rest h

/-- C3 witness: the sentinel in capitals with surrounding whitespace. -/
theorem C3_exit_sentinel_terminates_witness :
    pyLower (pyStrip " EXIT ") = "exit" ∧
    mainLoop (fun _ => none) (fun _ => .ok .null) 0 [" EXIT ", "junk"] =
      ⟨[.inputPrompt, .farewell], 0, .exited 0⟩ :=
  ⟨rfl, C3_exit_sentinel_terminates (fun _ => none) (fun _ => .ok .null) 0
    " EXIT " ["junk"] rfl⟩

/-- C4: an HTTP error status (4xx/5xx) makes the client print the status
code and response body and return `None` without raising, and the loop
prints the generic failure message and goes on processing the remaining
input. -/
theorem C4_http_error_reported_loop_continues (loads : String → Option Json)
    (net : Nat → HttpOutcome) (k status : Nat) (body line : String)
    (rest : List String) (h4 : 400 ≤ status) (h5 : status ≤ 599)
    (hnet : net k = .httpError status body)
    (hexit : pyLower (pyStrip line) ≠ "exit") (hne : pyStrip line ≠ "") :
    (∀ (loads2 : String → Option Json) (p : String),
      get_llm_response loads2 p (.httpError status body) =
        some ⟨[.httpErrorMsg status body], none⟩) ∧
    mainLoop loads net k (line :: rest) =
      ⟨[.inputPrompt, .brainstormWait, .httpErrorMsg status body, .genericFailure]
          ++ (mainLoop loads net (k + 1) rest).out,
        (mainLoop loads net (k + 1) rest).calls + 1,
        (mainLoop loads net (k + 1) rest).exit⟩ := by
  refine ⟨fun _ _ => rfl, ?_⟩
  rw [mainLoop_cons_concept loads net k line rest hexit hne, hnet]
  simp [get_llm_response]

/-- C4 witness: a simulated HTTP 429 followed by an exit line. -/
theorem C4_http_error_reported_loop_continues_witness :
    mainLoop (fun _ => none) (fun _ => .httpError 429 "quota exceeded") 0
        ["AI for fitness", "exit"] =
      ⟨[.inputPrompt, .brainstormWait, .httpErrorMsg 429 "quota exceeded",
        .genericFailure, .inputPrompt, .farewell], 1, .exited 0⟩ := by
  have h := C4_http_error_reported_loop_continues (fun _ => none)
    (fun _ => .httpError 429 "quota exceeded") 0 429 "quota exceeded"
    "AI for fitness" ["exit"] (by decide) (by decide) rfl (by decide) (by decide)
  rw [h.2]; rfl

/-- C5: when the outer call succeeded but `json.loads` rejects the nested
text, the client prints the decode-error line followed by the raw nested
string and returns `None` without crashing. -/
theorem C5_nested_parse_error_reported (loads : String → Option Json)
    (p : String) (env : Json) (s : String)
    (hcond : envelopeCond env = some true)
    (htext : extractNestedText env = some s) (hloads : loads s = none) :
    get_llm_response loads p (.ok env) =
      some ⟨[.jsonDecodeErrMsg, .rawNestedDump s], none⟩ := by
  simp [get_llm_response, hcond, htext, hloads]

/-- C5 witness: a truncated nested string every `loads` rejects. -/
theorem C5_nested_parse_error_reported_witness :
    get_llm_response (fun _ => none) "p" (.ok (mkEnvelope "\x7b\"idea\": \"X")) =
      some ⟨[.jsonDecodeErrMsg, .rawNestedDump "\x7b\"idea\": \"X"], none⟩ :=
  C5_nested_parse_error_reported (fun _ => none) "p"
    (mkEnvelope "\x7b\"idea\": \"X") "\x7b\"idea\": \"X" rfl rfl rfl

/-- C9: an input line that is empty after trimming issues no API call: the
loop prints the please-enter-a-concept line and carries on with the rest of
the input in the same state (same call counter, same continuation). -/
theorem C9_blank_input_reprompts (loads : String → Option Json)
    (net : Nat → HttpOutcome) (k : Nat) (line : String) (rest : List String)
    (h : pyStrip line = "") :
    mainLoop loads net k (line :: rest) =
      ⟨.inputPrompt :: .enterConcept :: (mainLoop loads net k rest).out,
        (mainLoop loads net k rest).calls, (mainLoop loads net k rest).exit⟩ := by
  conv_lhs => rw [mainLoop]
  simp [h, pyLower]

/-- C9 witness: a whitespace-only line followed by an exit line. -/
theorem C9_blank_input_reprompts_witness :
    mainLoop (fun _ => none) (fun _ => .ok .null) 0 ["   \t ", "exit"] =
      ⟨[.inputPrompt, .enterConcept, .inputPrompt, .farewell], 0, .exited 0⟩ := by
  rw [C9_blank_input_reprompts (fun _ => none) (fun _ => .ok .null) 0
    "   \t " ["exit"] rfl]
  rfl

/-- C7: for every non-empty trimmed concept, the outbound request payload
embeds the concept text verbatim inside the natural-language prompt field
(the single text part of the single content block). -/
theorem C7_payload_embeds_concept_verbatim (c : String)
    (htrim : pyStrip c = c) (hne : c ≠ "") :
    ∃ before after, (buildPayload (buildPrompt c)).contents =
      [{ parts := [{ text := before ++ c ++ after }] }] :=
  ⟨promptPrefix, promptSuffix, rfl⟩

/-- C7 witness: a concrete concept. -/
theorem C7_payload_embeds_concept_verbatim_witness :
    ∃ before after, (buildPayload (buildPrompt "AI for fitness")).contents =
      [{ parts := [{ text := before ++ "AI for fitness" ++ after }] }] :=
  C7_payload_embeds_concept_verbatim "AI for fitness" rfl (by decide)

/-- `List.mapM` over `Option` distributes over append when both halves
succeed. -/
theorem optionMapM_append {α β : Type} (f : α → Option β) (xs ys : List α)
    (lx ly : List β) (hx : xs.mapM f = some lx) (hy : ys.mapM f = some ly) :
    (xs ++ ys).mapM f = some (lx ++ ly) := by
  induction xs generalizing lx with
  | nil =>
    simp only [List.mapM_nil] at hx
    cases hx
    simpa using hy
  | cons a as ih =>
    rw [List.mapM_cons] at hx
    cases hfa : f a with
    | none => rw [hfa] at hx; simp at hx
    | some b =>
      rw [hfa] at hx
      cases hmas : as.mapM f with
      | none => rw [hmas] at hx; simp at hx
      | some bs =>
        rw [hmas] at hx
        simp only [Option.pure_def, Option.bind_eq_bind, Option.some_bind,
          Option.some.injEq] at hx
        cases hx
        rw [List.cons_append, List.mapM_cons, hfa, ih bs hmas]
        simp

/-- C8: an angle with an empty points list renders as its upper-cased
category header followed by the no-points placeholder, without raising; and
inside a full result, with any well-rendering angles around it, the
placeholder appears in the rendered output at that angle's position. -/
theorem C8_empty_points_placeholder (cat : String) (ja jb : List Json)
    (la lb : List (List OutLine)) (idea : Json) (concept : String)
    (hja : ja.mapM renderAngle = some la) (hjb : jb.mapM renderAngle = some lb) :
    renderAngle (.obj [("category", .str cat), ("points", .arr [])]) =
      some [.categoryHeader (pyUpper cat), .noPoints] ∧
    renderResult (.obj [("idea", idea),
        ("angles", .arr (ja ++ [.obj [("category", .str cat), ("points", .arr [])]] ++ jb))])
        concept =
      some ([.resultsBanner, .originalConcept idea, .sepLine]
        ++ la.flatten
        ++ [.categoryHeader (pyUpper cat), .noPoints]
        ++ lb.flatten ++ [.sepLine]) := by
  refine ⟨rfl, ?_⟩
  have hmap : (ja ++ [Json.obj [("category", .str cat), ("points", .arr [])]]
        ++ jb).mapM renderAngle =
      some (la ++ [[.categoryHeader (pyUpper cat), .noPoints]] ++ lb) :=
    optionMapM_append renderAngle _ jb _ lb
      (optionMapM_append renderAngle ja
        [Json.obj [("category", .str cat), ("points", .arr [])]] la
        [[.categoryHeader (pyUpper cat), .noPoints]] hja rfl) hjb
  have hrr : renderResult (.obj [("idea", idea),
        ("angles", .arr (ja ++ [Json.obj [("category", .str cat), ("points", .arr [])]]
          ++ jb))]) concept =
      ((ja ++ [Json.obj [("category", .str cat), ("points", .arr [])]]
          ++ jb).mapM renderAngle).bind
        (fun blocks => some ([.resultsBanner, .originalConcept idea, .sepLine]
          ++ blocks.flatten ++ [.sepLine])) := rfl
  rw [hrr, hmap]
  simp

/-- C8 witness: a concrete result with one normal angle followed by an
angle with an empty points list. -/
theorem C8_empty_points_placeholder_witness :
    renderResult (.obj [("idea", .str "X"),
        ("angles", .arr [
          .obj [("category", .str "Users"), ("points", .arr [.str "p"])],
          .obj [("category", .str "Ethics"), ("points", .arr [])]])]) "c" =
      some [.resultsBanner, .originalConcept (.str "X"), .sepLine,
        .categoryHeader "USERS", .bullet (.str "p"),
        .categoryHeader "ETHICS", .noPoints, .sepLine] := by
  have h := (C8_empty_points_placeholder "Ethics"
    [.obj [("category", .str "Users"), ("points", .arr [.str "p"])]] []
    [[.categoryHeader "USERS", .bullet (.str "p")]] [] (.str "X") "c"
    rfl rfl).2
  rw [show (Json.arr [
      .obj [("category", .str "Users"), ("points", .arr [.str "p"])],
      .obj [("category", .str "Ethics"), ("points", .arr [])]]) =
    (Json.arr ([.obj [("category", .str "Users"), ("points", .arr [.str "p"])]]
      ++ [.obj [("category", .str "Ethics"), ("points", .arr [])]] ++ [])) from rfl]
  rw [h]
  rfl

/-- C10: when the nested text parses to a falsy JSON value (empty object,
`null`, empty array, empty string, ...), the client returns that value, but
`main`'s `if brainstorm_result:` treats it exactly like a failed call:
nothing is rendered and only the generic failure advice is printed before
the loop continues. -/
theorem C10_falsy_result_generic_failure (loads : String → Option Json)
    (net : Nat → HttpOutcome) (k : Nat) (line : String) (rest : List String)
    (s : String) (v : Json) (hnet : net k = .ok (mkEnvelope s)) (hs : s ≠ "")
    (hloads : loads s = some v) (hfalsy : v.truthy = false)
    (hexit : pyLower (pyStrip line) ≠ "exit") (hne : pyStrip line ≠ "") :
    get_llm_response loads (buildPrompt (pyStrip line)) (net k) =
      some ⟨[], some v⟩ ∧
    mainLoop loads net k (line :: rest) =
      ⟨[.inputPrompt, .brainstormWait, .genericFailure]
          ++ (mainLoop loads net (k + 1) rest).out,
        (mainLoop loads net (k + 1) rest).calls + 1,
        (mainLoop loads net (k + 1) rest).exit⟩ := by
  have hg : get_llm_response loads (buildPrompt (pyStrip line))
      (.ok (mkEnvelope s)) = some ⟨[], some v⟩ := by
    rw [get_llm_response_mkEnvelope loads (buildPrompt (pyStrip line)) s hs,
      hloads]
  refine ⟨by rw [hnet]; exact hg, ?_⟩
  rw [mainLoop_cons_concept loads net k line rest hexit hne, hnet, hg]
  simp [hfalsy]

/-- C10 witness: a nested `"{}"` decoding to the empty object, followed by
an exit line. -/
theorem C10_falsy_result_generic_failure_witness :
    mainLoop (fun t => if t = "\x7b\x7d" then some (.obj []) else none)
        (fun _ => .ok (mkEnvelope "\x7b\x7d")) 0 ["idea app", "exit"] =
      ⟨[.inputPrompt, .brainstormWait, .genericFailure, .inputPrompt, .farewell],
        1, .exited 0⟩ := by
  have h := C10_falsy_result_generic_failure
    (fun t => if t = "\x7b\x7d" then some (.obj []) else none)
    (fun _ => .ok (mkEnvelope "\x7b\x7d")) 0 "idea app" ["exit"] "\x7b\x7d"
    (.obj []) rfl (by decide) (by simp) rfl (by decide) (by decide)
  rw [h.2]; rfl

/-- C6 counterexample: with the credential present and standard input
empty, `input()` raises an uncaught `EOFError`: the process terminates
abnormally with operating-system exit status 1, not 0 as the claim states
for end-of-input. -/
theorem C6_counterexample_eof_crashes :
    (runProgram (some "key") (fun _ => none) (fun _ => .ok .null) []).exit
      = .crashed ∧
    (runProgram (some "key") (fun _ => none) (fun _ => .ok .null) []).exit.exitStatus
      = 1 ∧
    ¬ (runProgram (some "key") (fun _ => none) (fun _ => .ok .null) []).exit.exitStatus
      = 0 :=
  ⟨rfl, rfl, by decide⟩

/-- C6 (amended): the process exits with status 0 on user-initiated exit
(the exit sentinel); with status 1 when the credential is missing at
startup; and on end-of-input it dies of an uncaught `EOFError`, which also
yields exit status 1. -/
theorem C6_exit_codes (apiKey : Option String) (loads : String → Option Json)
    (net : Nat → HttpOutcome) (inputs : List String) (k : Nat) (line : String)
    (rest : List String) :
    (keyTruthy apiKey = false →
      (runProgram apiKey loads net inputs).exit = .exited 1) ∧
    (pyLower (pyStrip line) = "exit" →
      (mainLoop loads net k (line :: rest)).exit = .exited 0) ∧
    (keyTruthy apiKey = true → pyLower (pyStrip line) = "exit" →
      (runProgram apiKey loads net (line :: rest)).exit = .exited 0) ∧
    (keyTruthy apiKey = true →
      (runProgram apiKey loads net []).exit = .crashed ∧
      (runProgram apiKey loads net []).exit.exitStatus = 1) := by
  refine ⟨fun h => by simp [runProgram, h], fun h => ?_, fun hk h => ?_, fun hk => ?_⟩
  · rw [mainLoop_exit_line loads net k line rest h]
  · rw [runProgram, if_pos hk,
      mainLoop_exit_line loads net 0 line rest h]
  · rw [runProgram, if_pos hk]
    exact ⟨rfl, rfl⟩

/-- C6 witness: concrete runs for each amended exit path. -/
theorem C6_exit_codes_witness :
    (runProgram none (fun _ => none) (fun _ => .ok .null) []).exit = .exited 1 ∧
    (mainLoop (fun _ => none) (fun _ => .ok .null) 0 ["Exit"]).exit = .exited 0 ∧
    (runProgram (some "key") (fun _ => none) (fun _ => .ok .null) ["Exit"]).exit
      = .exited 0 ∧
    (runProgram (some "key") (fun _ => none) (fun _ => .ok .null) []).exit
      = .crashed :=
  ⟨(C6_exit_codes none (fun _ => none) (fun _ => .ok .null) [] 0 "Exit" []).1 rfl,
   (C6_exit_codes (some "key") (fun _ => none) (fun _ => .ok .null) [] 0 "Exit" []).2.1 rfl,
   (C6_exit_codes (some "key") (fun _ => none) (fun _ => .ok .null) [] 0 "Exit" []).2.2.1 rfl rfl,
   ((C6_exit_codes (some "key") (fun _ => none) (fun _ => .ok .null) [] 0 "Exit" []).2.2.2 rfl).1⟩

end IdeaSpark
